import Mathlib

/-!
# auvn/pq : the pgx-backed client facade (`pgx_adapter.go`)

A shallow embedding of `PgxAdapter.Transaction` and `NewClient`.

* Go `error` values are `Option Err` (`none` is `nil`).
* The collaborators the code calls (the pool, the transaction handle, the
  metrics collector, the work function) are fields of a world record; each
  takes and returns the world state `σ`, so their outcome may depend on
  everything that happened before.
* Every call made on a collaborator is appended to a log, so that "how many
  times was Commit issued" is a statement about the value returned by the
  embedding.
-/

namespace Pq

/-! ## Errors (`error`, `github.com/pkg/errors`) -/

/-- An error value. `leaf` is any error that has no `Cause` method (its
identity and its `Error()` text); `withMessage` and `withStack` are the two
wrapper types of `github.com/pkg/errors` (the captured stack is not kept). -/
inductive Err where
  | leaf (id : Nat) (msg : String)
  | withMessage (cause : Err) (msg : String)
  | withStack (err : Err)
  deriving DecidableEq, Repr

namespace Err

/-- The `Error()` method: `withMessage` prints `msg + ": " + cause.Error()`,
`withStack` prints the error it embeds. -/
def Error : Err → String
  | leaf _ msg => msg
  | withMessage cause msg => msg ++ ": " ++ cause.Error
  | withStack err => err.Error

/-- The `Unwrap()`/`Cause()` method of a wrapper: one step down. -/
def Unwrap : Err → Option Err
  | leaf _ _ => none
  | withMessage cause _ => some cause
  | withStack err => some err

/-- The loop of `errors.Cause`: follow `Cause()` while the error has one. -/
def Cause : Err → Err
  | leaf id msg => leaf id msg
  | withMessage cause _ => cause.Cause
  | withStack err => err.Cause

/-- The cause chain: the error, then what it wraps, down to the root. -/
def chain : Err → List Err
  | leaf id msg => [leaf id msg]
  | withMessage cause msg => withMessage cause msg :: cause.chain
  | withStack err => withStack err :: err.chain

end Err

/-- `errors.Wrap(err, message)`: `nil` for a `nil` error, otherwise a
`withMessage` under a `withStack`. -/
def errors.Wrap (err : Option Err) (message : String) : Option Err :=
  match err with
  | none => none
  | some e => some (Err.withStack (Err.withMessage e message))

/-- `errors.Wrapf(err, format, args...)` with `formatted` the text that
`fmt.Sprintf(format, args...)` produced. -/
def errors.Wrapf (err : Option Err) (formatted : String) : Option Err :=
  match err with
  | none => none
  | some e => some (Err.withStack (Err.withMessage e formatted))

/-- `errors.Cause(err)`. -/
def errors.Cause (err : Option Err) : Option Err :=
  err.map Err.Cause

/-- The text `s` occurs inside the text `t`. -/
def Mentions (t s : String) : Prop :=
  s.data <:+: t.data

instance (t s : String) : Decidable (Mentions t s) := by
  unfold Mentions
  infer_instance

/-! ## Handles and interface values -/

/-- A `context.Context`. -/
structure Context where
  id : Nat
  deriving DecidableEq, Repr

/-- A `*pgxpool.Pool`. -/
structure Pool where
  id : Nat
  deriving DecidableEq, Repr

/-- A `pgx.Tx`. -/
structure Tx where
  id : Nat
  deriving DecidableEq, Repr

/-- The value of the package variable `defaultTxOptions` (a `pgx.TxOptions`). -/
structure TxOptions where
  id : Nat
  deriving DecidableEq, Repr

/-- The struct `PgxAdapter`. -/
structure PgxAdapter where
  pool : Pool
  withMetrics : Bool
  withTracing : Bool
  name : String
  deriving DecidableEq, Repr

/-- A value held in an interface variable of type `Executor`, `Transactor` or
`Client`: `nil`, or a pointer to one of the four implementing structs, with
the fields the composite literals of `pgx_adapter.go` set. -/
inductive Value where
  | nil
  | pgxAdapter (p : PgxAdapter)
  | pgxTxAdapter (tx : Tx)
  | tracingAdapter (Executor : Value) (Transactor : Value)
  | metricsAdapter (Executor : Value) (Transactor : Value) (name : String)
  deriving DecidableEq, Repr

abbrev Executor := Value
abbrev Transactor := Value
abbrev Client := Value

/-! ## `PgxAdapter.Transaction` -/

/-- A call made by `Transaction` on a collaborator. -/
inductive Event where
  | beginTx (pool : Pool) (ctx : Context) (opts : TxOptions)
  | work (ctx : Context) (executor : Executor)
  | rollback (tx : Tx) (ctx : Context)
  | commit (tx : Tx) (ctx : Context)
  deriving DecidableEq, Repr

/-- The pool and transaction operations `Transaction` calls, over a world
state `σ`. -/
structure Db (σ : Type) where
  defaultTxOptions : TxOptions
  BeginTx : Pool → Context → TxOptions → σ → Except Err Tx × σ
  Rollback : Tx → Context → σ → Option Err × σ
  Commit : Tx → Context → σ → Option Err × σ

/-- A work function `func(context.Context, Executor) error`. -/
abbrev Work (σ : Type) := Context → Executor → σ → Option Err × σ

/-- What a call of `Transaction` leaves behind: the returned error, the calls
it made in order, and the world state. -/
structure Outcome (σ : Type) where
  err : Option Err
  log : List Event
  state : σ

/-- The executor handed to the work function (lines 30-36). -/
def txExecutor (p : PgxAdapter) (tx : Tx) : Executor :=
  let txAdapter : Executor := Value.pgxTxAdapter tx
  let txAdapter : Executor :=
    if p.withTracing then Value.tracingAdapter txAdapter Value.nil else txAdapter
  let txAdapter : Executor :=
    if p.withMetrics then Value.metricsAdapter txAdapter Value.nil p.name else txAdapter
  txAdapter

/-- The method `(*PgxAdapter).Transaction`. -/
def PgxAdapter.Transaction {σ : Type} (db : Db σ) (p : PgxAdapter) (ctx : Context)
    (f : Work σ) (s : σ) : Outcome σ :=
  let begun := Event.beginTx p.pool ctx db.defaultTxOptions
  match db.BeginTx p.pool ctx db.defaultTxOptions s with
  | (Except.error er, s1) => ⟨some er, [begun], s1⟩
  | (Except.ok tx, s1) =>
    let txAdapter := txExecutor p tx
    match f ctx txAdapter s1 with
    | (some execErr, s2) =>
      let err := errors.Wrap (some execErr) "failed to exec transaction"
      match db.Rollback tx ctx s2 with
      | (some rbErr, s3) =>
        ⟨errors.Wrapf err ("failed to rollback failed transaction: " ++ rbErr.Error),
          [begun, Event.work ctx txAdapter, Event.rollback tx ctx], s3⟩
      | (none, s3) =>
        ⟨err, [begun, Event.work ctx txAdapter, Event.rollback tx ctx], s3⟩
    | (none, s2) =>
      match db.Commit tx ctx s2 with
      | (some err, s3) =>
        ⟨errors.Wrap (some err) "failed to commit transaction",
          [begun, Event.work ctx txAdapter, Event.commit tx ctx], s3⟩
      | (none, s3) =>
        ⟨none, [begun, Event.work ctx txAdapter, Event.commit tx ctx], s3⟩

/-- Is the event an invocation of the work function? -/
def Event.isWork : Event → Bool
  | Event.work _ _ => true
  | _ => false

/-- Is the event a `Rollback`? -/
def Event.isRollback : Event → Bool
  | Event.rollback _ _ => true
  | _ => false

/-- Is the event a `Commit`? -/
def Event.isCommit : Event → Bool
  | Event.commit _ _ => true
  | _ => false

/-- Number of invocations of the work function in a log. -/
def workCalls (log : List Event) : Nat := log.countP Event.isWork

/-- Number of `Rollback` calls in a log. -/
def rollbacks (log : List Event) : Nat := log.countP Event.isRollback

/-- Number of `Commit` calls in a log. -/
def commits (log : List Event) : Nat := log.countP Event.isCommit

/-! ## `NewClient` -/

/-- A `*zap.Logger`. -/
structure Logger where
  id : Nat
  deriving DecidableEq, Repr

/-- The fields of `Config` that `NewClient` reads. Durations are
`time.Duration` values (nanoseconds). -/
structure Config where
  ConnString : String
  Name : String
  MaxConnections : Int
  AcquireTimeout : Int
  TCPKeepAlivePeriod : Int
  Tracing : Bool
  Metrics : Bool
  Logger : Option Logger
  deriving DecidableEq, Repr

/-- The fields of the `net.Dialer` that `NewClient` builds. -/
structure Dialer where
  Timeout : Int
  KeepAlive : Int
  deriving DecidableEq, Repr

/-- A `*pgx.Conn`, as far as `BeforeAcquire` looks at it. -/
structure Conn where
  IsClosed : Bool
  deriving DecidableEq, Repr

/-- The fields of `pgx.ConnConfig` that `NewClient` writes. `DialFunc` holds
the dialer whose `DialContext` it is, `Logger` the logger that
`zapadapter.NewLogger` adapts. -/
structure ConnConfig where
  DialFunc : Option Dialer
  Logger : Option Logger
  deriving DecidableEq, Repr

/-- The fields of `pgxpool.Config` that `NewClient` writes. -/
structure PoolConfig where
  ConnConfig : ConnConfig
  MaxConns : Int
  BeforeAcquire : Option (Conn → Bool)

/-- `time.Minute`, in nanoseconds. -/
def Minute : Int := 60 * 1000000000

/-- A call made by `NewClient` on a collaborator. -/
inductive Call where
  | parseConfig (connString : String)
  | connectConfig (ctx : Context) (poolCfg : PoolConfig)
  | register (name : String) (pool : Pool)

/-- What `NewClient` calls: `Config.withDefaults` (declared outside
`pgx_adapter.go`), `pgxpool.ParseConfig`, `pgxpool.ConnectConfig`,
`collector.register`, and the quoting that `%q` applies. -/
structure Lib (σ : Type) where
  withDefaults : Config → Config
  ParseConfig : String → σ → Except Err PoolConfig × σ
  ConnectConfig : Context → PoolConfig → σ → Except Err Pool × σ
  register : String → Pool → σ → Option Err × σ
  Quote : String → String

/-- What a call of `NewClient` leaves behind: the client, or the value it
panicked with; the calls it made in order; the world state. -/
structure Built (σ : Type) where
  result : Except String Client
  calls : List Call
  state : σ

/-- Line 82-84: the keep-alive default. -/
def keepAliveDefault (cfg : Config) : Config :=
  if cfg.TCPKeepAlivePeriod = 0 then { cfg with TCPKeepAlivePeriod := 5 * Minute } else cfg

/-- Lines 85-97: what `NewClient` writes into the parsed pool configuration. -/
def fillPoolConfig (cfg : Config) (poolCfg : PoolConfig) : PoolConfig :=
  let dialer : Dialer := ⟨cfg.AcquireTimeout, cfg.TCPKeepAlivePeriod⟩
  let poolCfg : PoolConfig :=
    { poolCfg with ConnConfig := { poolCfg.ConnConfig with DialFunc := some dialer } }
  let poolCfg : PoolConfig := { poolCfg with MaxConns := cfg.MaxConnections }
  let poolCfg : PoolConfig :=
    match cfg.Logger with
    | some l => { poolCfg with ConnConfig := { poolCfg.ConnConfig with Logger := some l } }
    | none => poolCfg
  { poolCfg with BeforeAcquire := some (fun conn => !conn.IsClosed) }

/-- Lines 108-113: the struct `PgxAdapter` that `NewClient` builds. -/
def baseAdapter (cfg : Config) (connPool : Pool) : PgxAdapter where
  pool := connPool
  withMetrics := cfg.Metrics
  withTracing := cfg.Tracing
  name := cfg.Name

/-- Lines 108-123: the base adapter and the decorators around it. -/
def assemble (cfg : Config) (connPool : Pool) : Client :=
  let adapter : Client := Value.pgxAdapter (baseAdapter cfg connPool)
  let adapter : Client :=
    if cfg.Tracing then Value.tracingAdapter adapter adapter else adapter
  let adapter : Client :=
    if cfg.Metrics then Value.metricsAdapter adapter adapter cfg.Name else adapter
  adapter

/-- The function `NewClient`. A panic is `Except.error` with the panic text. -/
def NewClient {σ : Type} (lib : Lib σ) (ctx : Context) (cfg : Config) (s : σ) : Built σ :=
  let cfg := lib.withDefaults cfg
  match lib.ParseConfig cfg.ConnString s with
  | (Except.error err, s1) =>
    ⟨Except.error ("failed to connect to postgres " ++ cfg.ConnString ++ ": " ++ err.Error),
      [Call.parseConfig cfg.ConnString], s1⟩
  | (Except.ok poolCfg, s1) =>
    let cfg := keepAliveDefault cfg
    let poolCfg := fillPoolConfig cfg poolCfg
    match lib.ConnectConfig ctx poolCfg s1 with
    | (Except.error err, s2) =>
      ⟨Except.error ("failed to connect to postgres " ++ cfg.ConnString ++ ": " ++ err.Error),
        [Call.parseConfig cfg.ConnString, Call.connectConfig ctx poolCfg], s2⟩
    | (Except.ok connPool, s2) =>
      match lib.register cfg.Name connPool s2 with
      | (some err, s3) =>
        ⟨Except.error ("failed to register dbx pool " ++ lib.Quote cfg.Name ++ ": " ++ err.Error),
          [Call.parseConfig cfg.ConnString, Call.connectConfig ctx poolCfg,
            Call.register cfg.Name connPool], s3⟩
      | (none, s3) =>
        ⟨Except.ok (assemble cfg connPool),
          [Call.parseConfig cfg.ConnString, Call.connectConfig ctx poolCfg,
            Call.register cfg.Name connPool], s3⟩

/-- Modelled from the spec: `Config.withDefaults` is declared outside
`pgx_adapter.go`. The spec has it "apply defaults (acquire timeout, keep-alive
period) if unset"; the two default values are parameters. -/
def Config.withDefaults (acquireTimeout keepAlive : Int) (cfg : Config) : Config :=
  { cfg with
    AcquireTimeout := if cfg.AcquireTimeout = 0 then acquireTimeout else cfg.AcquireTimeout
    TCPKeepAlivePeriod :=
      if cfg.TCPKeepAlivePeriod = 0 then keepAlive else cfg.TCPKeepAlivePeriod }

/-! ## Decorator chains -/

/-- A world over a step counter: every operation answers with a fixed result
and advances the counter. -/
def scriptedDb (begun : Except Err Tx) (rolledBack committed : Option Err) : Db Nat where
  defaultTxOptions := ⟨0⟩
  BeginTx := fun _ _ _ s => (begun, s + 1)
  Rollback := fun _ _ s => (rolledBack, s + 1)
  Commit := fun _ _ s => (committed, s + 1)

/-- A work function that returns a fixed result and advances the counter. -/
def scriptedWork (result : Option Err) : Work Nat :=
  fun _ _ s => (result, s + 1)

/-- An adapter with both decorators switched on. -/
def mainAdapter : PgxAdapter := ⟨⟨1⟩, true, true, "main"⟩

/-- What the parser is taken to produce in the examples: no dial function, no
logger, no acquire hook, and a default of four connections. -/
def parsedConfig : PoolConfig := ⟨⟨none, none⟩, 4, none⟩

/-- A library world over a step counter: the defaults step is the one modelled
from the spec, every other operation answers with a fixed result and advances
the counter. -/
def scriptedLib (parsed : Except Err PoolConfig) (connected : Except Err Pool)
    (registered : Option Err) : Lib Nat where
  withDefaults := Config.withDefaults (2 * Minute) (5 * Minute)
  ParseConfig := fun _ s => (parsed, s + 1)
  ConnectConfig := fun _ _ s => (connected, s + 1)
  register := fun _ _ s => (registered, s + 1)
  Quote := fun name =>
    String.singleton (Char.ofNat 34) ++ name ++ String.singleton (Char.ofNat 34)

/-- A configuration with every optional field unset. -/
def sampleConfig (tracing metrics : Bool) : Config where
  ConnString := "postgres://db"
  Name := "main"
  MaxConnections := 0
  AcquireTimeout := 0
  TCPKeepAlivePeriod := 0
  Tracing := tracing
  Metrics := metrics
  Logger := none

/-! ## Lemmas on errors -/

theorem Err.self_mem_chain (e : Err) : e ∈ e.chain := by
  cases e <;> simp [Err.chain]

theorem Err.cause_eq_self_of_unwrap_none (e : Err) (h : e.Unwrap = none) : e.Cause = e := by
  cases e <;> simp [Err.Unwrap, Err.Cause] at h ⊢

theorem mentions_of_append (a s b : String) : Mentions (a ++ s ++ b) s := by
  unfold Mentions
  simp only [String.data_append]
  exact List.infix_append _ _ _

/-! ## `PgxAdapter.Transaction` -/

/-- C3: when the work function returns a non-nil error e and the rollback that
follows returns a non-nil error r, the message of the error `Transaction`
returns contains the message of e and the message of r; it is
"failed to rollback failed transaction: R: failed to exec transaction: E". -/
theorem transaction_rollback_failure_keeps_both {σ : Type} (db : Db σ) (p : PgxAdapter)
    (ctx : Context) (f : Work σ) (tx : Tx) (e r : Err) (s s1 s2 s3 : σ)
    (hBegin : db.BeginTx p.pool ctx db.defaultTxOptions s = (Except.ok tx, s1))
    (hWork : f ctx (txExecutor p tx) s1 = (some e, s2))
    (hRollback : db.Rollback tx ctx s2 = (some r, s3)) :
    ∃ x, (p.Transaction db ctx f s).err = some x ∧
      Mentions x.Error e.Error ∧ Mentions x.Error r.Error ∧
      x.Error = "failed to rollback failed transaction: " ++ r.Error ++ ": " ++
        ("failed to exec transaction" ++ ": " ++ e.Error) := by
  refine ⟨Err.withStack (Err.withMessage
    (Err.withStack (Err.withMessage e "failed to exec transaction"))
    ("failed to rollback failed transaction: " ++ r.Error)), ?_, ?_, ?_, ?_⟩
  · simp [PgxAdapter.Transaction, hBegin, hWork, hRollback, errors.Wrap, errors.Wrapf]
  · have h := mentions_of_append
      ("failed to rollback failed transaction: " ++ r.Error ++ ": " ++
        "failed to exec transaction" ++ ": ") e.Error ""
    simpa [Err.Error, String.append_assoc] using h
  · have h := mentions_of_append "failed to rollback failed transaction: " r.Error
      (": " ++ ("failed to exec transaction" ++ ": " ++ e.Error))
    simpa [Err.Error, String.append_assoc] using h
  · simp [Err.Error]

theorem transaction_rollback_failure_keeps_both_witness :
    ∃ x, (mainAdapter.Transaction
      (scriptedDb (Except.ok ⟨7⟩) (some (Err.leaf 2 "conn busy")) none) ⟨0⟩
      (scriptedWork (some (Err.leaf 1 "boom"))) 0).err = some x ∧
      Mentions x.Error (Err.leaf 1 "boom").Error ∧
      Mentions x.Error (Err.leaf 2 "conn busy").Error ∧
      x.Error = "failed to rollback failed transaction: " ++ (Err.leaf 2 "conn busy").Error
        ++ ": " ++ ("failed to exec transaction" ++ ": " ++ (Err.leaf 1 "boom").Error) :=
  transaction_rollback_failure_keeps_both
    (scriptedDb (Except.ok ⟨7⟩) (some (Err.leaf 2 "conn busy")) none) mainAdapter ⟨0⟩
    (scriptedWork (some (Err.leaf 1 "boom"))) ⟨7⟩ (Err.leaf 1 "boom") (Err.leaf 2 "conn busy")
    0 1 2 3 rfl rfl rfl

/-- C4: when begin succeeds, the work function returns nil and `Commit`
returns a non-nil error c, `Transaction` returns a non-nil error whose cause is
c (the message wrapper built by `errors.Wrap` has c as its cause, under the
text "failed to commit transaction"; the root cause is that of c, which is c
when c wraps nothing), and it issues one `Commit` and no `Rollback`. -/
theorem transaction_commit_failure {σ : Type} (db : Db σ) (p : PgxAdapter) (ctx : Context)
    (f : Work σ) (tx : Tx) (c : Err) (s s1 s2 s3 : σ)
    (hBegin : db.BeginTx p.pool ctx db.defaultTxOptions s = (Except.ok tx, s1))
    (hWork : f ctx (txExecutor p tx) s1 = (none, s2))
    (hCommit : db.Commit tx ctx s2 = (some c, s3)) :
    (p.Transaction db ctx f s).err ≠ none ∧
    rollbacks (p.Transaction db ctx f s).log = 0 ∧
    commits (p.Transaction db ctx f s).log = 1 ∧
    ∃ x, (p.Transaction db ctx f s).err = some x ∧
      x = Err.withStack (Err.withMessage c "failed to commit transaction") ∧
      x.Unwrap.bind Err.Unwrap = some c ∧ c ∈ x.chain ∧ x.Cause = c.Cause ∧
      (c.Unwrap = none → x.Cause = c) ∧
      x.Error = "failed to commit transaction" ++ ": " ++ c.Error := by
  have hself := Err.self_mem_chain c
  have hleaf := Err.cause_eq_self_of_unwrap_none c
  simp [PgxAdapter.Transaction, hBegin, hWork, hCommit, commits, rollbacks,
    Event.isCommit, Event.isRollback, errors.Wrap, Err.chain, Err.Cause, Err.Unwrap,
    Err.Error, hself]
  exact hleaf

theorem transaction_commit_failure_witness :
    (mainAdapter.Transaction (scriptedDb (Except.ok ⟨7⟩) none (some (Err.leaf 3 "conflict")))
      ⟨0⟩ (scriptedWork none) 0).err ≠ none ∧
    rollbacks (mainAdapter.Transaction
      (scriptedDb (Except.ok ⟨7⟩) none (some (Err.leaf 3 "conflict")))
      ⟨0⟩ (scriptedWork none) 0).log = 0 ∧
    commits (mainAdapter.Transaction
      (scriptedDb (Except.ok ⟨7⟩) none (some (Err.leaf 3 "conflict")))
      ⟨0⟩ (scriptedWork none) 0).log = 1 ∧
    ∃ x, (mainAdapter.Transaction
      (scriptedDb (Except.ok ⟨7⟩) none (some (Err.leaf 3 "conflict")))
      ⟨0⟩ (scriptedWork none) 0).err = some x ∧
      x = Err.withStack (Err.withMessage (Err.leaf 3 "conflict") "failed to commit transaction") ∧
      x.Unwrap.bind Err.Unwrap = some (Err.leaf 3 "conflict") ∧
      Err.leaf 3 "conflict" ∈ x.chain ∧ x.Cause = (Err.leaf 3 "conflict").Cause ∧
      ((Err.leaf 3 "conflict").Unwrap = none → x.Cause = Err.leaf 3 "conflict") ∧
      x.Error = "failed to commit transaction" ++ ": " ++ (Err.leaf 3 "conflict").Error :=
  transaction_commit_failure (scriptedDb (Except.ok ⟨7⟩) none (some (Err.leaf 3 "conflict")))
    mainAdapter ⟨0⟩ (scriptedWork none) ⟨7⟩ (Err.leaf 3 "conflict") 0 1 2 3 rfl rfl rfl

/-- C5: when `BeginTx` fails with error b, `Transaction` returns exactly b,
never invokes the work function, and issues neither `Commit` nor `Rollback`:
the only call it makes is the `BeginTx`. -/
theorem transaction_begin_failure {σ : Type} (db : Db σ) (p : PgxAdapter) (ctx : Context)
    (f : Work σ) (b : Err) (s s1 : σ)
    (hBegin : db.BeginTx p.pool ctx db.defaultTxOptions s = (Except.error b, s1)) :
    (p.Transaction db ctx f s).err = some b ∧
    workCalls (p.Transaction db ctx f s).log = 0 ∧
    commits (p.Transaction db ctx f s).log = 0 ∧
    rollbacks (p.Transaction db ctx f s).log = 0 ∧
    (p.Transaction db ctx f s).log = [Event.beginTx p.pool ctx db.defaultTxOptions] ∧
    (p.Transaction db ctx f s).state = s1 := by
  simp [PgxAdapter.Transaction, hBegin, workCalls, commits, rollbacks,
    Event.isWork, Event.isCommit, Event.isRollback]

theorem transaction_begin_failure_witness :
    (mainAdapter.Transaction (scriptedDb (Except.error (Err.leaf 4 "pool closed")) none none)
      ⟨0⟩ (scriptedWork none) 0).err = some (Err.leaf 4 "pool closed") ∧
    workCalls (mainAdapter.Transaction
      (scriptedDb (Except.error (Err.leaf 4 "pool closed")) none none)
      ⟨0⟩ (scriptedWork none) 0).log = 0 ∧
    commits (mainAdapter.Transaction
      (scriptedDb (Except.error (Err.leaf 4 "pool closed")) none none)
      ⟨0⟩ (scriptedWork none) 0).log = 0 ∧
    rollbacks (mainAdapter.Transaction
      (scriptedDb (Except.error (Err.leaf 4 "pool closed")) none none)
      ⟨0⟩ (scriptedWork none) 0).log = 0 ∧
    (mainAdapter.Transaction (scriptedDb (Except.error (Err.leaf 4 "pool closed")) none none)
      ⟨0⟩ (scriptedWork none) 0).log = [Event.beginTx ⟨1⟩ ⟨0⟩ ⟨0⟩] ∧
    (mainAdapter.Transaction (scriptedDb (Except.error (Err.leaf 4 "pool closed")) none none)
      ⟨0⟩ (scriptedWork none) 0).state = 1 :=
  transaction_begin_failure (scriptedDb (Except.error (Err.leaf 4 "pool closed")) none none)
    mainAdapter ⟨0⟩ (scriptedWork none) (Err.leaf 4 "pool closed") 0 1 rfl

theorem keepAliveDefault_keeps (cfg : Config) :
    (keepAliveDefault cfg).ConnString = cfg.ConnString ∧
    (keepAliveDefault cfg).Name = cfg.Name ∧
    (keepAliveDefault cfg).MaxConnections = cfg.MaxConnections ∧
    (keepAliveDefault cfg).Tracing = cfg.Tracing ∧
    (keepAliveDefault cfg).Metrics = cfg.Metrics := by
  unfold keepAliveDefault
  split <;> simp

theorem newClient_ok {σ : Type} (lib : Lib σ) (ctx : Context) (cfg : Config)
    (poolCfg : PoolConfig) (connPool : Pool) (s s1 s2 s3 : σ)
    (hParse : lib.ParseConfig (lib.withDefaults cfg).ConnString s = (Except.ok poolCfg, s1))
    (hConnect : lib.ConnectConfig ctx
      (fillPoolConfig (keepAliveDefault (lib.withDefaults cfg)) poolCfg) s1
      = (Except.ok connPool, s2))
    (hRegister : lib.register (lib.withDefaults cfg).Name connPool s2 = (none, s3)) :
    (NewClient lib ctx cfg s).result
      = Except.ok (assemble (keepAliveDefault (lib.withDefaults cfg)) connPool) := by
  have hk := keepAliveDefault_keeps (lib.withDefaults cfg)
  simp only [NewClient, hParse, hConnect, hk.2.1, hRegister]

theorem assemble_keepAliveDefault (cfg : Config) (connPool : Pool) :
    assemble (keepAliveDefault cfg) connPool = assemble cfg connPool := by
  have hk := keepAliveDefault_keeps cfg
  simp [assemble, baseAdapter, hk.2.1, hk.2.2.2.1, hk.2.2.2.2]

/-- C6: when construction succeeds, the client `NewClient` returns is, by the
(Tracing, Metrics) flags of the configuration after the defaults step: the
bare base adapter for neither; tracing(base) for tracing only; metrics(base)
with the pool name for metrics only; metrics(tracing(base)) with the pool name
for both. In each decorator the Executor and the Transactor are the same inner
value. -/
theorem newClient_nesting {σ : Type} (lib : Lib σ) (ctx : Context) (cfg : Config)
    (poolCfg : PoolConfig) (connPool : Pool) (s s1 s2 s3 : σ)
    (hParse : lib.ParseConfig (lib.withDefaults cfg).ConnString s = (Except.ok poolCfg, s1))
    (hConnect : lib.ConnectConfig ctx
      (fillPoolConfig (keepAliveDefault (lib.withDefaults cfg)) poolCfg) s1
      = (Except.ok connPool, s2))
    (hRegister : lib.register (lib.withDefaults cfg).Name connPool s2 = (none, s3)) :
    ∃ client, (NewClient lib ctx cfg s).result = Except.ok client ∧
      ((lib.withDefaults cfg).Tracing = false → (lib.withDefaults cfg).Metrics = false →
        client = Value.pgxAdapter (baseAdapter (lib.withDefaults cfg) connPool)) ∧
      ((lib.withDefaults cfg).Tracing = true → (lib.withDefaults cfg).Metrics = false →
        client = Value.tracingAdapter
          (Value.pgxAdapter (baseAdapter (lib.withDefaults cfg) connPool))
          (Value.pgxAdapter (baseAdapter (lib.withDefaults cfg) connPool))) ∧
      ((lib.withDefaults cfg).Tracing = false → (lib.withDefaults cfg).Metrics = true →
        client = Value.metricsAdapter
          (Value.pgxAdapter (baseAdapter (lib.withDefaults cfg) connPool))
          (Value.pgxAdapter (baseAdapter (lib.withDefaults cfg) connPool))
          (lib.withDefaults cfg).Name) ∧
      ((lib.withDefaults cfg).Tracing = true → (lib.withDefaults cfg).Metrics = true →
        client = Value.metricsAdapter
          (Value.tracingAdapter
            (Value.pgxAdapter (baseAdapter (lib.withDefaults cfg) connPool))
            (Value.pgxAdapter (baseAdapter (lib.withDefaults cfg) connPool)))
          (Value.tracingAdapter
            (Value.pgxAdapter (baseAdapter (lib.withDefaults cfg) connPool))
            (Value.pgxAdapter (baseAdapter (lib.withDefaults cfg) connPool)))
          (lib.withDefaults cfg).Name) := by
  refine ⟨_, newClient_ok lib ctx cfg poolCfg connPool s s1 s2 s3 hParse hConnect hRegister,
    ?_, ?_, ?_, ?_⟩ <;>
  · intro hT hM
    rw [assemble_keepAliveDefault]
    simp [assemble, hT, hM]

theorem newClient_nesting_witness :
    ∃ client, (NewClient (scriptedLib (Except.ok parsedConfig) (Except.ok ⟨1⟩) none) ⟨0⟩
        (sampleConfig true true) 0).result = Except.ok client ∧
      (true = false → true = false →
        client = Value.pgxAdapter ⟨⟨1⟩, true, true, "main"⟩) ∧
      (true = true → true = false →
        client = Value.tracingAdapter (Value.pgxAdapter ⟨⟨1⟩, true, true, "main"⟩)
          (Value.pgxAdapter ⟨⟨1⟩, true, true, "main"⟩)) ∧
      (true = false → true = true →
        client = Value.metricsAdapter (Value.pgxAdapter ⟨⟨1⟩, true, true, "main"⟩)
          (Value.pgxAdapter ⟨⟨1⟩, true, true, "main"⟩) "main") ∧
      (true = true → true = true →
        client = Value.metricsAdapter
          (Value.tracingAdapter (Value.pgxAdapter ⟨⟨1⟩, true, true, "main"⟩)
            (Value.pgxAdapter ⟨⟨1⟩, true, true, "main"⟩))
          (Value.tracingAdapter (Value.pgxAdapter ⟨⟨1⟩, true, true, "main"⟩)
            (Value.pgxAdapter ⟨⟨1⟩, true, true, "main"⟩))
          "main") :=
  newClient_nesting (scriptedLib (Except.ok parsedConfig) (Except.ok ⟨1⟩) none) ⟨0⟩
    (sampleConfig true true) parsedConfig ⟨1⟩ 0 1 2 3 rfl rfl rfl

/-- C8: `NewClient` returns a client only when parsing the connection string,
establishing the pool and registering the pool all succeed, and then it does.
When parsing fails it panics having made no other call; when establishing the
pool fails it panics without calling `register`; when `register` fails it
panics; in none of these cases is a client returned. -/
theorem newClient_all_or_nothing {σ : Type} (lib : Lib σ) (ctx : Context) (cfg : Config)
    (s : σ) :
    (∀ err s1, lib.ParseConfig (lib.withDefaults cfg).ConnString s = (Except.error err, s1) →
      (∃ msg, (NewClient lib ctx cfg s).result = Except.error msg) ∧
      (NewClient lib ctx cfg s).calls = [Call.parseConfig (lib.withDefaults cfg).ConnString]) ∧
    (∀ poolCfg s1 err s2,
      lib.ParseConfig (lib.withDefaults cfg).ConnString s = (Except.ok poolCfg, s1) →
      lib.ConnectConfig ctx (fillPoolConfig (keepAliveDefault (lib.withDefaults cfg)) poolCfg) s1
        = (Except.error err, s2) →
      (∃ msg, (NewClient lib ctx cfg s).result = Except.error msg) ∧
      (NewClient lib ctx cfg s).calls = [Call.parseConfig (lib.withDefaults cfg).ConnString,
        Call.connectConfig ctx
          (fillPoolConfig (keepAliveDefault (lib.withDefaults cfg)) poolCfg)]) ∧
    (∀ poolCfg s1 connPool s2 err s3,
      lib.ParseConfig (lib.withDefaults cfg).ConnString s = (Except.ok poolCfg, s1) →
      lib.ConnectConfig ctx (fillPoolConfig (keepAliveDefault (lib.withDefaults cfg)) poolCfg) s1
        = (Except.ok connPool, s2) →
      lib.register (lib.withDefaults cfg).Name connPool s2 = (some err, s3) →
      (∃ msg, (NewClient lib ctx cfg s).result = Except.error msg) ∧
      (NewClient lib ctx cfg s).calls = [Call.parseConfig (lib.withDefaults cfg).ConnString,
        Call.connectConfig ctx (fillPoolConfig (keepAliveDefault (lib.withDefaults cfg)) poolCfg),
        Call.register (lib.withDefaults cfg).Name connPool]) ∧
    (∀ poolCfg s1 connPool s2 s3,
      lib.ParseConfig (lib.withDefaults cfg).ConnString s = (Except.ok poolCfg, s1) →
      lib.ConnectConfig ctx (fillPoolConfig (keepAliveDefault (lib.withDefaults cfg)) poolCfg) s1
        = (Except.ok connPool, s2) →
      lib.register (lib.withDefaults cfg).Name connPool s2 = (none, s3) →
      ∃ client, (NewClient lib ctx cfg s).result = Except.ok client) ∧
    (∀ client, (NewClient lib ctx cfg s).result = Except.ok client →
      ∃ poolCfg s1 connPool s2 s3,
        lib.ParseConfig (lib.withDefaults cfg).ConnString s = (Except.ok poolCfg, s1) ∧
        lib.ConnectConfig ctx
          (fillPoolConfig (keepAliveDefault (lib.withDefaults cfg)) poolCfg) s1
          = (Except.ok connPool, s2) ∧
        lib.register (lib.withDefaults cfg).Name connPool s2 = (none, s3)) := by
  have hk := (keepAliveDefault_keeps (lib.withDefaults cfg)).2.1
  have hc := (keepAliveDefault_keeps (lib.withDefaults cfg)).1
  refine ⟨?_, ?_, ?_, ?_, ?_⟩
  · intro err s1 hParse
    simp [NewClient, hParse]
  · intro poolCfg s1 err s2 hParse hConnect
    simp [NewClient, hParse, hConnect, hc]
  · intro poolCfg s1 connPool s2 err s3 hParse hConnect hRegister
    simp [NewClient, hParse, hConnect, hk, hc, hRegister]
  · intro poolCfg s1 connPool s2 s3 hParse hConnect hRegister
    exact ⟨_, newClient_ok lib ctx cfg poolCfg connPool s s1 s2 s3 hParse hConnect hRegister⟩
  · intro client hOk
    rcases hParse : lib.ParseConfig (lib.withDefaults cfg).ConnString s with ⟨parsed, s1⟩
    cases parsed with
    | error err => simp [NewClient, hParse] at hOk
    | ok poolCfg =>
      rcases hConnect : lib.ConnectConfig ctx
        (fillPoolConfig (keepAliveDefault (lib.withDefaults cfg)) poolCfg) s1
        with ⟨connected, s2⟩
      cases connected with
      | error err => simp [NewClient, hParse, hConnect] at hOk
      | ok connPool =>
        rcases hRegister : lib.register (lib.withDefaults cfg).Name connPool s2
          with ⟨registered, s3⟩
        cases registered with
        | some err => simp [NewClient, hParse, hConnect, hk, hRegister] at hOk
        | none => exact ⟨poolCfg, s1, connPool, s2, s3, rfl, hConnect, hRegister⟩

theorem newClient_all_or_nothing_witness :
    (∃ msg, (NewClient
      (scriptedLib (Except.ok parsedConfig) (Except.error (Err.leaf 5 "refused")) none) ⟨0⟩
      (sampleConfig true true) 0).result = Except.error msg) ∧
    (NewClient
      (scriptedLib (Except.ok parsedConfig) (Except.error (Err.leaf 5 "refused")) none) ⟨0⟩
      (sampleConfig true true) 0).calls =
      [Call.parseConfig "postgres://db",
        Call.connectConfig ⟨0⟩ (fillPoolConfig (keepAliveDefault
          (Config.withDefaults (2 * Minute) (5 * Minute) (sampleConfig true true)))
          parsedConfig)] :=
  (newClient_all_or_nothing
    (scriptedLib (Except.ok parsedConfig) (Except.error (Err.leaf 5 "refused")) none) ⟨0⟩
    (sampleConfig true true) 0).2.1 parsedConfig 1 (Err.leaf 5 "refused") 2 rfl rfl

end Pq
